import Mathlib

/-!
A shallow embedding of the minhypr window-minimization manager
(`src/main.rs`) and proofs about its reconciliation engine, store,
and minimize/restore orchestration.

External commands (`hyprctl`, `grim`, `convert`, `pkill`) are modelled by
an `Env` record holding, for each command the program may run, the result
the outside world would give it.  The mutable world (the cache file, the
waybar signals fired, the dispatch commands executed) is threaded as an
explicit `St` state.  `Command::output()` returning `Err` (the command
could not be run) is modelled as `Except.error ()`, which the source
propagates with `?`; for `hyprctl ... -j` queries an `Except.ok s` carries
the stdout text after `String::from_utf8(..).unwrap_or_default()`, and for
dispatch commands an `Except.ok b` carries `output.status.success()`.
The stdout of `hyprctl activewindow -j` / `activeworkspace -j` is modelled
at the level of the key/value map that `parse_window_info` produces from
it (none of the claims under study concerns the parser itself).
-/

namespace Minhypr

/-- Substring test on character lists, mirroring Rust `str::contains`
(for valid UTF-8, byte-level substring occurrence coincides with
character-level occurrence). -/
def listContains (pat : List Char) : List Char → Bool
  | [] => pat.isEmpty
  | c :: t => pat.isPrefixOf (c :: t) || listContains pat t

/-- `hay.contains(pat)` of Rust. -/
def strContains (hay pat : String) : Bool :=
  listContains pat.data hay.data

/-- Rust `str::to_lowercase` (ASCII-faithful; the icon table keys are ASCII). -/
def strToLower (s : String) : String :=
  String.mk (s.data.map Char.toLower)

/-- Rust `str::trim` (ASCII-whitespace-faithful). -/
def strTrim (s : String) : String :=
  String.mk (((s.data.dropWhile Char.isWhitespace).reverse.dropWhile Char.isWhitespace).reverse)

/-- Value of a nonempty all-digit character list. -/
def digitsVal (l : List Char) : Nat :=
  l.foldl (fun acc c => acc * 10 + (c.toNat - 48)) 0

/-- Rust `str::parse::<i32>()`: optional sign, ASCII digits, i32 range
(overflow is a parse error, not a wrap). -/
def parseI32 (s : String) : Option Int :=
  let core : Int → List Char → Option Int := fun sign l =>
    if l.isEmpty || !(l.all Char.isDigit) then none
    else
      let v : Int := sign * (digitsVal l : Int)
      if -2147483648 ≤ v ∧ v ≤ 2147483647 then some v else none
  match s.data with
  | '-' :: rest => core (-1) rest
  | '+' :: rest => core 1 rest
  | l => core 1 l

/-- One entry per minimized window (`struct MinimizedWindow` in
`src/main.rs`).  The Rust field `class` is named `cls` here because
`class` is a Lean keyword. -/
structure MinimizedWindow where
  address : String
  display_title : String
  cls : String
  original_title : String
  preview_path : Option String
  icon : String
  workspace : Int
deriving DecidableEq, Repr

/-- Observable states of the backing cache file
`/tmp/minhypr-state/windows.json`: absent; present but
`fs::read_to_string` fails; present but not valid JSON for
`Vec<MinimizedWindow>`; or a successfully parsed record list. -/
inductive CacheFile where
  | absent
  | unreadable
  | corrupt
  | ok (windows : List MinimizedWindow)
deriving DecidableEq, Repr

/-- `hyprctl dispatch` commands the program issues. -/
inductive HyprCmd where
  | moveToWorkspace (workspace : Int) (address : String)
  | focusWindow (address : String)
  | moveToSpecialMinimized (address : String)
deriving DecidableEq, Repr

/-- The mutable world threaded through one invocation: the cache file,
how many `signal_waybar` notifications have fired, and the dispatch
commands executed so far. -/
structure St where
  file : CacheFile
  signals : Nat
  cmds : List HyprCmd
deriving DecidableEq, Repr

/-- Results the outside world gives to each external command the program
may run during one invocation. -/
structure Env where
  clients : Except Unit String
  workspaces : Except Unit String
  activeWindow : Except Unit (Bool × List (String × String))
  activeWorkspace : Except Unit (Bool × List (String × String))
  grim : Except Unit Unit
  convertThumb : Except Unit Unit
  convertIcon : Except Unit Unit
  removePreview : Except Unit Unit
  moveToSpecial : Except Unit Bool
  dispatchMove : Except Unit Bool
  dispatchFocus : Except Unit Bool

/-- Outcome reported by `restore_specific_window` (`println!` messages). -/
inductive RestoreResult where
  | restored
  | notFound
deriving DecidableEq, Repr

/-- The `ICONS` table of `src/main.rs`. -/
def ICONS : List (String × String) := [
  ("firefox", ""),
  ("Alacritty", ""),
  ("kitty", ""),
  ("discord", "󰙯"),
  ("Steam", ""),
  ("chromium", ""),
  ("chrome", ""),
  ("code", "󰨞"),
  ("spotify", ""),
  ("default", "󰖲")]

/-- `get_app_icon`: first table key contained case-insensitively in the
class name wins; otherwise the last table row's glyph. -/
def get_app_icon (class_name : String) : String :=
  match ICONS.find? (fun p => strContains (strToLower class_name) (strToLower p.1)) with
  | some p => p.2
  | none => (ICONS.getLastD ("default", "󰖲")).2

/-- `signal_waybar`: fires the waybar refresh signal (its own result is
discarded by the source, so it cannot fail here). -/
def signal_waybar (st : St) : St :=
  { st with signals := st.signals + 1 }

/-- `save_windows_to_cache`: serializes and overwrites the cache file. -/
def save_windows_to_cache (ws : List MinimizedWindow) (st : St) : St :=
  { st with file := CacheFile.ok ws }

/-- Record one executed `hyprctl dispatch` command. -/
def issueCmd (c : HyprCmd) (st : St) : St :=
  { st with cmds := st.cmds ++ [c] }

/-- The keep test on one cached record inside `validate_cached_windows`
(`src/main.rs:163-165`): the clients listing must contain the address,
and the workspaces listing must contain both the literal
`special:minimized` and the address. -/
def keepWindow (windows_json workspaces_json : String) (w : MinimizedWindow) : Bool :=
  strContains windows_json w.address &&
    (strContains workspaces_json "special:minimized" &&
      strContains workspaces_json w.address)

/-- `validate_cached_windows` (`src/main.rs:138-179`): the reconciliation
pass.  Empty input short-circuits; otherwise the two `hyprctl` queries
run (an `Err` from either propagates); surviving records are those
passing `keepWindow`; if any record was dropped the filtered list is
saved and the waybar signal fired. -/
def validate_cached_windows (env : Env) (windows : List MinimizedWindow) (st : St) :
    Except Unit (List MinimizedWindow) × St :=
  if windows.isEmpty then (Except.ok [], st)
  else
    match env.clients with
    | Except.error e => (Except.error e, st)
    | Except.ok windows_json =>
      match env.workspaces with
      | Except.error e => (Except.error e, st)
      | Except.ok workspaces_json =>
        let valid_windows := windows.filter (keepWindow windows_json workspaces_json)
        let need_update := windows.any (fun w => !(keepWindow windows_json workspaces_json w))
        if need_update then
          (Except.ok valid_windows, signal_waybar (save_windows_to_cache valid_windows st))
        else
          (Except.ok valid_windows, st)

/-- `read_windows_from_cache` (`src/main.rs:123-136`): absent file yields
an empty list; a file whose read fails propagates the error; unparseable
contents yield an empty list (without rewriting the file); a parsed
nonempty list goes through `validate_cached_windows`. -/
def read_windows_from_cache (env : Env) (st : St) :
    Except Unit (List MinimizedWindow) × St :=
  match st.file with
  | CacheFile.absent => (Except.ok [], st)
  | CacheFile.unreadable => (Except.error (), st)
  | CacheFile.corrupt => (Except.ok [], st)
  | CacheFile.ok windows => validate_cached_windows env windows st

/-- `capture_window_preview` (`src/main.rs:76-121`): grim screenshot,
two `convert` derivations, then deletion of the full screenshot; each
step's failure propagates, otherwise the thumbnail path is returned. -/
def capture_window_preview (env : Env) (window_id : String) (_geometry : String) :
    Except Unit String :=
  let thumb_path := "/tmp/minhypr-previews/" ++ window_id ++ ".thumb.png"
  match env.grim with
  | Except.error e => Except.error e
  | Except.ok _ =>
    match env.convertThumb with
    | Except.error e => Except.error e
    | Except.ok _ =>
      match env.convertIcon with
      | Except.error e => Except.error e
      | Except.ok _ =>
        match env.removePreview with
        | Except.error e => Except.error e
        | Except.ok _ => Except.ok thumb_path

/-- `HashMap::get` on the parsed window/workspace info. -/
def lookupField (data : List (String × String)) (key : String) : Option String :=
  List.lookup key data

/-- The inner loop of `restore_specific_window` (`src/main.rs:218-238`):
matching records trigger the two dispatch commands (each a fallible
`output()?`) and are left out of the updated list; other records are
kept. -/
def restoreLoop (env : Env) (window_id : String) :
    List MinimizedWindow → St → Except Unit (Bool × List MinimizedWindow) × St
  | [], st => (Except.ok (false, []), st)
  | w :: rest, st =>
    if w.address == window_id then
      match env.dispatchMove with
      | Except.error e => (Except.error e, st)
      | Except.ok _ =>
        let st1 := issueCmd (HyprCmd.moveToWorkspace w.workspace window_id) st
        match env.dispatchFocus with
        | Except.error e => (Except.error e, st1)
        | Except.ok _ =>
          let st2 := issueCmd (HyprCmd.focusWindow window_id) st1
          match restoreLoop env window_id rest st2 with
          | (Except.error e, st3) => (Except.error e, st3)
          | (Except.ok (_, updated), st3) => (Except.ok (true, updated), st3)
    else
      match restoreLoop env window_id rest st with
      | (Except.error e, st3) => (Except.error e, st3)
      | (Except.ok (found, updated), st3) => (Except.ok (found, w :: updated), st3)

/-- `restore_specific_window` (`src/main.rs:207-249`): read (and hence
validate) the cache, walk the records, and if the address was found save
the remaining records.  No waybar signal is fired by this function
itself. -/
def restore_specific_window (env : Env) (window_id : String) (st : St) :
    Except Unit RestoreResult × St :=
  match read_windows_from_cache env st with
  | (Except.error e, st1) => (Except.error e, st1)
  | (Except.ok windows, st1) =>
    match restoreLoop env window_id windows st1 with
    | (Except.error e, st2) => (Except.error e, st2)
    | (Except.ok (found, updated_windows), st2) =>
      if found then
        (Except.ok RestoreResult.restored, save_windows_to_cache updated_windows st2)
      else
        (Except.ok RestoreResult.notFound, st2)

/-- `minimize_window` (`src/main.rs:425-516`). -/
def minimize_window (env : Env) (st : St) : Except Unit Unit × St :=
  match env.activeWindow with
  | Except.error e => (Except.error e, st)
  | Except.ok (success, window_data) =>
    if !success then (Except.ok (), st)
    else if lookupField window_data "class" == some "wofi" then (Except.ok (), st)
    else
      match env.activeWorkspace with
      | Except.error e => (Except.error e, st)
      | Except.ok (wsuccess, workspace_data) =>
        let current_workspace : Int :=
          if wsuccess then
            match (lookupField workspace_data "id").bind parseI32 with
            | some id => id
            | none => 1
          else 1
        match lookupField window_data "address" with
        | none => (Except.ok (), st)
        | some window_addr =>
          let short_addr : String := String.mk (window_addr.data.reverse.take 4)
          match lookupField window_data "class" with
          | none => (Except.ok (), st)
          | some class_name =>
            match lookupField window_data "title" with
            | none => (Except.ok (), st)
            | some title =>
              let icon := get_app_icon class_name
              let preview_path : Option String :=
                match lookupField window_data "at", lookupField window_data "size" with
                | some at_, some size =>
                  (capture_window_preview env window_addr
                    (strTrim at_ ++ "," ++ strTrim size)).toOption
                | _, _ => none
              let window : MinimizedWindow :=
                { address := window_addr
                  display_title := icon ++ " " ++ class_name ++ " - " ++ title
                    ++ " [" ++ short_addr ++ "]"
                  cls := class_name
                  original_title := title
                  preview_path := preview_path
                  icon := icon
                  workspace := current_workspace }
              match env.moveToSpecial with
              | Except.error e => (Except.error e, st)
              | Except.ok msuccess =>
                let st1 := issueCmd (HyprCmd.moveToSpecialMinimized window_addr) st
                if msuccess then
                  match read_windows_from_cache env st1 with
                  | (Except.error e, st2) => (Except.error e, st2)
                  | (Except.ok windows, st2) =>
                    (Except.ok (),
                      signal_waybar (save_windows_to_cache (windows ++ [window]) st2))
                else (Except.ok (), st1)

/-- `show_status` (`src/main.rs:518-532`): the reported count and CSS
class of the one-line waybar status record. -/
def show_status (env : Env) (st : St) : Except Unit (Nat × String) × St :=
  match read_windows_from_cache env st with
  | (Except.error e, st1) => (Except.error e, st1)
  | (Except.ok windows, st1) =>
    let count := windows.length
    if count > 0 then (Except.ok (count, "has-windows"), st1)
    else (Except.ok (count, "empty"), st1)

/-- The `restore-last` branch of `main` (`src/main.rs:882-889`): read the
cache and restore `windows.first()` when it exists. -/
def restore_last (env : Env) (st : St) : Except Unit Unit × St :=
  match read_windows_from_cache env st with
  | (Except.error e, st1) => (Except.error e, st1)
  | (Except.ok windows, st1) =>
    match windows.head? with
    | some window =>
      match restore_specific_window env window.address st1 with
      | (Except.error e, st2) => (Except.error e, st2)
      | (Except.ok _, st2) => (Except.ok (), st2)
    | none => (Except.ok (), st1)

/-- The workspace id `minimize_window` stores when the active-workspace
query succeeded with the given parsed data. -/
def wsFromData (wdata : List (String × String)) : Int :=
  match (lookupField wdata "id").bind parseI32 with
  | some id => id
  | none => 1

/-- The record `minimize_window` builds for active-window data
`{address: a, class: c, title: t, at: u, size: v}`. -/
def minRecord (env : Env) (a c t u v : String) (wdata : List (String × String)) :
    MinimizedWindow :=
  { address := a
    display_title := get_app_icon c ++ " " ++ c ++ " - " ++ t
      ++ " [" ++ String.mk (a.data.reverse.take 4) ++ "]"
    cls := c
    original_title := t
    preview_path := (capture_window_preview env a (strTrim u ++ "," ++ strTrim v)).toOption
    icon := get_app_icon c
    workspace := wsFromData wdata }

/-! ## Concrete environments and states used as test inputs -/

/-- A record with the given address and origin workspace and fixed
remaining fields. -/
def mkRec (addr : String) (wsp : Int) : MinimizedWindow :=
  { address := addr
    display_title := "d"
    cls := "kitty"
    original_title := "t"
    preview_path := none
    icon := "i"
    workspace := wsp }

/-- A default world: both `hyprctl` listings run but print nothing, the
preview tools work, dispatches run and report success, and the
active-window queries fail to run. -/
def baseEnv : Env :=
  { clients := Except.ok ""
    workspaces := Except.ok ""
    activeWindow := Except.error ()
    activeWorkspace := Except.error ()
    grim := Except.ok ()
    convertThumb := Except.ok ()
    convertIcon := Except.ok ()
    removePreview := Except.ok ()
    moveToSpecial := Except.error ()
    dispatchMove := Except.ok true
    dispatchFocus := Except.ok true }

def st1 : St := { file := CacheFile.ok [mkRec "0x11" 1], signals := 0, cmds := [] }

def envQueryErr : Env := { baseEnv with clients := Except.error () }

def st1w : St := { file := CacheFile.ok [mkRec "0x12" 1], signals := 0, cmds := [] }

def rA : MinimizedWindow := mkRec "0xa" 1

def rB : MinimizedWindow := mkRec "0xb" 2

def env2 : Env := { baseEnv with
  clients := Except.ok "0xa 0xb"
  workspaces := Except.ok "special:minimized 0xa" }

def st2w : St := { file := CacheFile.absent, signals := 0, cmds := [] }

def r3 : MinimizedWindow := mkRec "0x33" 3

def st3 : St := { file := CacheFile.ok [r3], signals := 0, cmds := [] }

def r3b : MinimizedWindow := mkRec "0x34" 2

def env3ok : Env := { baseEnv with
  clients := Except.ok "0x34"
  workspaces := Except.ok "special:minimized 0x34" }

def st3b : St := { file := CacheFile.ok [r3b], signals := 0, cmds := [] }

def env4 : Env := { baseEnv with
  activeWindow := Except.ok (true,
    [("address", "0x44"), ("class", "kitty"), ("title", "sh"), ("at", "0,0"), ("size", "10,10")])
  activeWorkspace := Except.ok (true, [])
  moveToSpecial := Except.ok false }

def st4 : St := { file := CacheFile.ok [mkRec "0x45" 1], signals := 0, cmds := [] }

def r51 : MinimizedWindow := mkRec "0x51" 3

def r52 : MinimizedWindow := mkRec "0x52" 7

def env5 : Env := { baseEnv with
  clients := Except.ok "0x51 0x52"
  workspaces := Except.ok "special:minimized 0x51 0x52"
  dispatchMove := Except.ok true
  dispatchFocus := Except.ok false }

def st5 : St := { file := CacheFile.ok [r51, r52], signals := 0, cmds := [] }

/-- World for the double-minimize experiment: the active window is
`0xabc`, it is listed by `hyprctl clients`, the workspaces listing shows
it inside `special:minimized`, and the move command succeeds. -/
def env6 : Env :=
  { clients := Except.ok "0xabc"
    workspaces := Except.ok "special:minimized 0xabc"
    activeWindow := Except.ok (true,
      [("address", "0xabc"), ("class", "kitty"), ("title", "shell")])
    activeWorkspace := Except.ok (true, [("id", "2")])
    grim := Except.ok ()
    convertThumb := Except.ok ()
    convertIcon := Except.ok ()
    removePreview := Except.ok ()
    moveToSpecial := Except.ok true
    dispatchMove := Except.ok true
    dispatchFocus := Except.ok true }

def st6 : St := { file := CacheFile.ok [], signals := 0, cmds := [] }

/-- The record one successful minimize of the `env6` active window
builds: `0xabc` reversed and truncated to 4 characters is `cbax`, the
workspace id parses to 2, and no `at`/`size` fields means no preview. -/
def rec6 : MinimizedWindow :=
  { address := "0xabc"
    display_title := get_app_icon "kitty" ++ " kitty - shell [cbax]"
    cls := "kitty"
    original_title := "shell"
    preview_path := none
    icon := get_app_icon "kitty"
    workspace := 2 }

def r7 : MinimizedWindow := mkRec "0x77" 5

def env7 : Env := { baseEnv with
  clients := Except.ok "0x77"
  workspaces := Except.ok "special:minimized 0x77" }

def st7 : St := { file := CacheFile.ok [r7], signals := 0, cmds := [] }

def r8 : MinimizedWindow := mkRec "0x88" 1

def env8 : Env := { baseEnv with clients := Except.error () }

def st8 : St := { file := CacheFile.ok [r8], signals := 0, cmds := [] }

def st8w : St := { file := CacheFile.corrupt, signals := 2, cmds := [] }

def env9 : Env :=
  { clients := Except.ok "x"
    workspaces := Except.ok "y"
    activeWindow := Except.ok (true,
      [("address", "0x99"), ("class", "kitty"), ("title", "sh"), ("at", "1,2"), ("size", "3,4")])
    activeWorkspace := Except.ok (true, [])
    grim := Except.error ()
    convertThumb := Except.ok ()
    convertIcon := Except.ok ()
    removePreview := Except.ok ()
    moveToSpecial := Except.ok true
    dispatchMove := Except.ok true
    dispatchFocus := Except.ok true }

def st9 : St := { file := CacheFile.ok [], signals := 0, cmds := [] }

def rX : MinimizedWindow := mkRec "0xc1" 4

def rY : MinimizedWindow := mkRec "0xc2" 9

def env10 : Env := { baseEnv with
  clients := Except.ok "0xc1 0xc2"
  workspaces := Except.ok "special:minimized 0xc1 0xc2" }

def st10 : St := { file := CacheFile.ok [rX, rY], signals := 0, cmds := [] }

/-! ## Helper lemmas -/

/-- A reconciliation pass over records that all pass the keep test is the
identity: nothing is filtered, nothing is saved, no signal fires. -/
lemma validate_keep_all (env : Env) (ws : List MinimizedWindow) (st : St) (cj wj : String)
    (hc : env.clients = Except.ok cj) (hw : env.workspaces = Except.ok wj)
    (hkeep : ∀ w ∈ ws, keepWindow cj wj w = true) :
    validate_cached_windows env ws st = (Except.ok ws, st) := by
  unfold validate_cached_windows
  by_cases hemp : ws.isEmpty = true
  · rw [List.isEmpty_iff] at hemp
    subst hemp
    simp
  · have h1 : ws.filter (keepWindow cj wj) = ws := List.filter_eq_self.mpr hkeep
    have h2 : (ws.any fun w => !(keepWindow cj wj w)) = false := by
      rw [List.any_eq_false]
      intro w hwm
      simp [hkeep w hwm]
    simp [hemp, hc, hw, h1, h2]

/-- Reading the cache when the file holds a list whose records all pass
the keep test returns that list and leaves the world unchanged. -/
lemma read_consistent (env : Env) (st : St) (ws : List MinimizedWindow) (cj wj : String)
    (hfile : st.file = CacheFile.ok ws)
    (hc : env.clients = Except.ok cj) (hw : env.workspaces = Except.ok wj)
    (hkeep : ∀ w ∈ ws, keepWindow cj wj w = true) :
    read_windows_from_cache env st = (Except.ok ws, st) := by
  unfold read_windows_from_cache
  rw [hfile]
  exact validate_keep_all env ws st cj wj hc hw hkeep

/-- If any step of the preview pipeline fails, the pipeline returns the
error (and hence no thumbnail path). -/
lemma capture_window_preview_error (env : Env) (id g : String)
    (h : env.grim = Except.error () ∨ env.convertThumb = Except.error () ∨
      env.convertIcon = Except.error () ∨ env.removePreview = Except.error ()) :
    capture_window_preview env id g = Except.error () := by
  obtain he | he | he | he := h <;>
    · unfold capture_window_preview
      repeat' split
      all_goals first
      | rfl
      | simp_all

/-- The restore loop over records none of which matches the requested
address issues no command and keeps every record. -/
lemma restoreLoop_all_miss (env : Env) (id : String) (ws : List MinimizedWindow)
    (h : ∀ w ∈ ws, w.address ≠ id) :
    ∀ st, restoreLoop env id ws st = (Except.ok (false, ws), st) := by
  induction ws with
  | nil => intro st; rfl
  | cons w rest ih =>
    intro st
    have hw : (w.address == id) = false := beq_eq_false_iff_ne.mpr (h w (by simp))
    have ihr := ih (fun x hx => h x (by simp [hx])) st
    simp [restoreLoop, hw, ihr]

/-- The restore loop over a list containing exactly one match issues the
two dispatch commands for it (whatever success they report) and keeps
exactly the other records, in order. -/
lemma restoreLoop_unique_hit (env : Env) (id : String) (b1 b2 : Bool)
    (hm : env.dispatchMove = Except.ok b1) (hf : env.dispatchFocus = Except.ok b2)
    (l1 l2 : List MinimizedWindow) (w : MinimizedWindow) (hwid : w.address = id)
    (h1 : ∀ x ∈ l1, x.address ≠ id) (h2 : ∀ x ∈ l2, x.address ≠ id) :
    ∀ st, restoreLoop env id (l1 ++ w :: l2) st =
      (Except.ok (true, l1 ++ l2),
        { st with cmds := st.cmds ++
            [HyprCmd.moveToWorkspace w.workspace id, HyprCmd.focusWindow id] }) := by
  induction l1 with
  | nil =>
    intro st
    have hw : (w.address == id) = true := beq_iff_eq.mpr hwid
    have hrest := restoreLoop_all_miss env id l2 h2
      { st with cmds := st.cmds ++
          [HyprCmd.moveToWorkspace w.workspace id, HyprCmd.focusWindow id] }
    simp [restoreLoop, hw, hm, hf, issueCmd, hrest]
  | cons x rest ih =>
    intro st
    have hx : (x.address == id) = false := beq_eq_false_iff_ne.mpr (h1 x (by simp))
    have ihr := ih (fun y hy => h1 y (by simp [hy])) st
    simp [restoreLoop, hx, ihr]

/-- Full behaviour of a successful minimize: active window with data
`{address: a, class: c, title: t, at: u, size: v}`, class not denylisted,
workspace query answered, move reporting success, and a cache whose
records all validate: the built record is appended, saved, and the
waybar signal fired. -/
lemma minimize_success_spec (env : Env) (st : St) (a c t u v cj wj : String)
    (ws : List MinimizedWindow) (wdata : List (String × String))
    (hA : env.activeWindow =
      Except.ok (true, [("address", a), ("class", c), ("title", t), ("at", u), ("size", v)]))
    (hwofi : c ≠ "wofi")
    (hW : env.activeWorkspace = Except.ok (true, wdata))
    (hM : env.moveToSpecial = Except.ok true)
    (hfile : st.file = CacheFile.ok ws)
    (hc : env.clients = Except.ok cj) (hw : env.workspaces = Except.ok wj)
    (hkeep : ∀ w ∈ ws, keepWindow cj wj w = true) :
    minimize_window env st =
      (Except.ok (),
        { file := CacheFile.ok (ws ++ [minRecord env a c t u v wdata])
          signals := st.signals + 1
          cmds := st.cmds ++ [HyprCmd.moveToSpecialMinimized a] }) := by
  have hread : read_windows_from_cache env
      { st with cmds := st.cmds ++ [HyprCmd.moveToSpecialMinimized a] } =
      (Except.ok ws, { st with cmds := st.cmds ++ [HyprCmd.moveToSpecialMinimized a] }) :=
    read_consistent env _ ws cj wj hfile hc hw hkeep
  have hlkc : List.lookup "class"
      [("address", a), ("class", c), ("title", t), ("at", u), ("size", v)] = some c := rfl
  have hlka : List.lookup "address"
      [("address", a), ("class", c), ("title", t), ("at", u), ("size", v)] = some a := rfl
  have hlkt : List.lookup "title"
      [("address", a), ("class", c), ("title", t), ("at", u), ("size", v)] = some t := rfl
  have hlku : List.lookup "at"
      [("address", a), ("class", c), ("title", t), ("at", u), ("size", v)] = some u := rfl
  have hlkv : List.lookup "size"
      [("address", a), ("class", c), ("title", t), ("at", u), ("size", v)] = some v := rfl
  unfold minimize_window
  rw [hA]
  simp [lookupField, hlkc, hlka, hlkt, hlku, hlkv, hwofi, hW, hM, hread, issueCmd,
    signal_waybar, save_windows_to_cache, minRecord, wsFromData]

/-- When the move-to-hidden-workspace command does not report success,
`minimize_window` leaves the cache file and the signal count unchanged
(no record is created, nothing is persisted, no notification fires). -/
lemma minimize_frame_of_not_success (env : Env) (st : St)
    (h : env.moveToSpecial ≠ Except.ok true) :
    (minimize_window env st).2.file = st.file ∧
      (minimize_window env st).2.signals = st.signals := by
  unfold minimize_window
  rcases hA : env.activeWindow with e | p
  · simp
  · obtain ⟨succ, data⟩ := p
    cases succ
    · simp
    · by_cases hwofi : (lookupField data "class" == some "wofi") = true
      · simp [hwofi]
      · rcases hW : env.activeWorkspace with e | q
        · simp [hwofi]
        · obtain ⟨wsucc, wdata⟩ := q
          rcases haddr : lookupField data "address" with _ | addr
          · simp [hwofi, haddr]
          · rcases hcls : lookupField data "class" with _ | cls0
            · simp [hwofi, haddr, hcls]
            · have hne : cls0 ≠ "wofi" := by
                intro hcontra
                apply hwofi
                rw [hcls, hcontra]
                rfl
              rcases htit : lookupField data "title" with _ | tit
              · simp [hwofi, haddr, hcls, htit, hne]
              · rcases hM : env.moveToSpecial with e | msucc
                · simp [hwofi, haddr, hcls, htit, hne, hM]
                · have hms : msucc = false := by
                    cases msucc
                    · rfl
                    · exact absurd hM h
                  subst hms
                  simp [hwofi, haddr, hcls, htit, hne, hM, issueCmd]

/-! ## Claims -/

/-- C1 counterexample: the claim that a reconciliation pass returns the
Store unchanged whenever the live-state snapshots yield no usable output
is false: with both `hyprctl` queries succeeding but printing nothing
(e.g. `hyprctl` erroring out on stdout-less failure, or non-UTF-8
output defaulted to the empty string), the pass drops every record and
overwrites the Store with the empty list. -/
theorem reconcile_drops_on_empty_output :
    (validate_cached_windows baseEnv [mkRec "0x11" 1] st1).1 = Except.ok [] ∧
      (validate_cached_windows baseEnv [mkRec "0x11" 1] st1).2.file = CacheFile.ok [] ∧
      st1.file ≠ CacheFile.ok [] :=
  ⟨rfl, rfl, by decide⟩

/-- C1 (amended): fail-safe reconciliation holds only for the case where
a window-manager query itself fails to run: then the pass leaves the
whole world state (cache file, signal count, command trace) unchanged,
dropping no records — it propagates the error instead of returning a
Store. -/
theorem reconcile_failsafe_on_query_error (env : Env) (ws : List MinimizedWindow) (st : St)
    (h : env.clients = Except.error () ∨ env.workspaces = Except.error ()) :
    (validate_cached_windows env ws st).2 = st := by
  unfold validate_cached_windows
  by_cases hemp : ws.isEmpty = true
  · simp [hemp]
  · rcases h with h | h
    · simp [hemp, h]
    · rcases hc : env.clients with e | cj
      · simp [hemp, hc]
      · simp [hemp, hc, h]

/-- C1 witness: a concrete store of one record survives a pass whose
clients query fails to run. -/
theorem reconcile_failsafe_on_query_error_witness :
    (validate_cached_windows envQueryErr [mkRec "0x12" 1] st1w).2 = st1w :=
  reconcile_failsafe_on_query_error envQueryErr [mkRec "0x12" 1] st1w (Or.inl rfl)

/-- C2: keep-iff contract of the reconciliation pass.  When the two
serialized listings faithfully represent the snapshots — address
occurrence in the clients text coincides with membership in the set of
open windows, address occurrence in the workspaces text coincides with
membership in the set of hidden-workspace addresses, and the workspaces
text shows the hidden workspace — a record survives the pass if and only
if its address is present in BOTH snapshots. -/
theorem reconcile_keep_iff (env : Env) (st : St) (ws : List MinimizedWindow)
    (cj wj : String) (openAddrs hiddenAddrs : List String)
    (hc : env.clients = Except.ok cj) (hw : env.workspaces = Except.ok wj)
    (hspecial : strContains wj "special:minimized" = true)
    (hopen : ∀ w ∈ ws, (strContains cj w.address = true ↔ w.address ∈ openAddrs))
    (hhidden : ∀ w ∈ ws, (strContains wj w.address = true ↔ w.address ∈ hiddenAddrs)) :
    ∃ valid, (validate_cached_windows env ws st).1 = Except.ok valid ∧
      ∀ w, w ∈ valid ↔ (w ∈ ws ∧ w.address ∈ openAddrs ∧ w.address ∈ hiddenAddrs) := by
  refine ⟨ws.filter (keepWindow cj wj), ?_, ?_⟩
  · by_cases hemp : ws.isEmpty = true
    · rw [List.isEmpty_iff] at hemp
      subst hemp
      rfl
    · unfold validate_cached_windows
      rw [hc, hw]
      simp only [hemp, if_false, Bool.false_eq_true]
      split <;> rfl
  · intro w
    rw [List.mem_filter]
    unfold keepWindow
    constructor
    · rintro ⟨hmem, hkp⟩
      rw [Bool.and_eq_true, Bool.and_eq_true] at hkp
      exact ⟨hmem, (hopen w hmem).mp hkp.1, (hhidden w hmem).mp hkp.2.2⟩
    · rintro ⟨hmem, ho, hh⟩
      refine ⟨hmem, ?_⟩
      rw [Bool.and_eq_true, Bool.and_eq_true]
      exact ⟨(hopen w hmem).mpr ho, hspecial, (hhidden w hmem).mpr hh⟩

/-- C2 witness: with open windows `{0xa, 0xb}` and hidden set `{0xa}`,
record `0xa` survives and record `0xb` is dropped. -/
theorem reconcile_keep_iff_witness :
    ∃ valid, (validate_cached_windows env2 [rA, rB] st2w).1 = Except.ok valid ∧
      ∀ w, w ∈ valid ↔
        (w ∈ [rA, rB] ∧ w.address ∈ ["0xa", "0xb"] ∧ w.address ∈ ["0xa"]) :=
  reconcile_keep_iff env2 st2w [rA, rB] "0xa 0xb" "special:minimized 0xa"
    ["0xa", "0xb"] ["0xa"] rfl rfl (by decide) (by decide) (by decide)

/-- C3 counterexample: the claim that `show` (status) never mutates the
Store and never triggers reconciliation is false: `show_status` reads
the cache through the validating read, and on a store whose record no
longer validates it persists the filtered (empty) list and fires the
waybar signal. -/
theorem status_mutates_on_stale_store :
    show_status baseEnv st3 =
      (Except.ok (0, "empty"), { file := CacheFile.ok [], signals := 1, cmds := [] }) ∧
      st3.file ≠ CacheFile.ok [] :=
  ⟨rfl, by decide⟩

/-- C3 (amended): status reports the record count and the
non-empty/empty classification, and it performs no mutation of its own —
but its cache read does run a reconciliation pass; only when every
record passes the keep test does status leave the world unchanged. -/
theorem status_frame_when_consistent (env : Env) (st : St) (ws : List MinimizedWindow)
    (cj wj : String)
    (hfile : st.file = CacheFile.ok ws)
    (hc : env.clients = Except.ok cj) (hw : env.workspaces = Except.ok wj)
    (hkeep : ∀ w ∈ ws, keepWindow cj wj w = true) :
    show_status env st =
      (Except.ok (ws.length, if ws.length > 0 then "has-windows" else "empty"), st) := by
  unfold show_status
  rw [read_consistent env st ws cj wj hfile hc hw hkeep]
  by_cases hl : ws.length > 0
  · simp [hl]
  · simp [hl]

/-- C3 witness: status over a consistent one-record store reports count 1
and leaves the state untouched. -/
theorem status_frame_when_consistent_witness :
    show_status env3ok st3b =
      (Except.ok (([r3b] : List MinimizedWindow).length,
        if ([r3b] : List MinimizedWindow).length > 0 then "has-windows" else "empty"), st3b) :=
  status_frame_when_consistent env3ok st3b [r3b] "0x34" "special:minimized 0x34"
    rfl rfl rfl (by decide)

/-- C4: minimize is gated on the move command's reported success.  If the
move does not report success, no record is created: the cache file and
the signal count are unchanged.  If it does report success (active
window known, class not denylisted), the built record is appended to the
validated store, persisted, and the waybar notification fired. -/
theorem minimize_gated_on_move (env : Env) (st : St) :
    (env.moveToSpecial ≠ Except.ok true →
      (minimize_window env st).2.file = st.file ∧
        (minimize_window env st).2.signals = st.signals) ∧
    (∀ a c t u v cj wj ws,
      env.activeWindow =
        Except.ok (true, [("address", a), ("class", c), ("title", t), ("at", u), ("size", v)]) →
      c ≠ "wofi" →
      env.activeWorkspace = Except.ok (true, []) →
      env.moveToSpecial = Except.ok true →
      st.file = CacheFile.ok ws →
      env.clients = Except.ok cj →
      env.workspaces = Except.ok wj →
      (∀ w ∈ ws, keepWindow cj wj w = true) →
      (minimize_window env st).2.file = CacheFile.ok (ws ++ [minRecord env a c t u v []]) ∧
        (minimize_window env st).2.signals = st.signals + 1) := by
  constructor
  · intro h
    exact minimize_frame_of_not_success env st h
  · intro a c t u v cj wj ws hA hwofi hW hM hfile hc hw hkeep
    rw [minimize_success_spec env st a c t u v cj wj ws [] hA hwofi hW hM hfile hc hw hkeep]
    exact ⟨rfl, rfl⟩

/-- C4 witness: a move command that runs but reports failure leaves a
one-record store untouched and fires no signal. -/
theorem minimize_gated_on_move_witness :
    (minimize_window env4 st4).2.file = st4.file ∧
      (minimize_window env4 st4).2.signals = st4.signals :=
  (minimize_gated_on_move env4 st4).1 (by simp [env4, baseEnv])

/-- C5: restore by address, over a store whose records all validate
(so the initial cache read is the identity), with unique addresses, and
with both dispatch commands runnable (whatever success `b1`, `b2` they
report).  If no record has the address, restore reports not-found and
changes nothing.  If a record has the address, restore executes the
move-to-workspace command targeting exactly the stored origin workspace
plus the focus command, removes exactly that record, and persists — for
any reported success values — so the store shrinks by exactly one. -/
theorem restore_by_address_spec (env : Env) (st : St) (ws : List MinimizedWindow)
    (cj wj id : String) (b1 b2 : Bool)
    (hc : env.clients = Except.ok cj) (hw : env.workspaces = Except.ok wj)
    (hfile : st.file = CacheFile.ok ws)
    (hkeep : ∀ w ∈ ws, keepWindow cj wj w = true)
    (hnd : ws.Pairwise fun x y => x.address ≠ y.address)
    (hm : env.dispatchMove = Except.ok b1) (hf : env.dispatchFocus = Except.ok b2) :
    ((∀ w ∈ ws, w.address ≠ id) →
      restore_specific_window env id st = (Except.ok RestoreResult.notFound, st)) ∧
    (∀ w ∈ ws, w.address = id →
      restore_specific_window env id st =
        (Except.ok RestoreResult.restored,
          { st with file := CacheFile.ok (ws.filter fun x => !(x.address == id)),
                    cmds := st.cmds ++
                      [HyprCmd.moveToWorkspace w.workspace id, HyprCmd.focusWindow id] }) ∧
      (ws.filter fun x => !(x.address == id)).length + 1 = ws.length) := by
  have hread := read_consistent env st ws cj wj hfile hc hw hkeep
  constructor
  · intro hmiss
    unfold restore_specific_window
    rw [hread]
    simp [restoreLoop_all_miss env id ws hmiss st]
  · intro w hmem hwid
    obtain ⟨l1, l2, rfl⟩ := List.append_of_mem hmem
    have hpw := List.pairwise_append.mp hnd
    have h1 : ∀ x ∈ l1, x.address ≠ id := by
      intro x hx
      have hxw := hpw.2.2 x hx w (by simp)
      exact hwid ▸ hxw
    have h2 : ∀ x ∈ l2, x.address ≠ id := by
      intro x hx hcontra
      have hcons := List.pairwise_cons.mp hpw.2.1
      exact (hcons.1 x hx) (hwid.trans hcontra.symm)
    have hfilter : ((l1 ++ w :: l2).filter fun x => !(x.address == id)) = l1 ++ l2 := by
      rw [List.filter_append, List.filter_cons]
      have hwneg : (!(w.address == id)) = false := by simp [hwid]
      have e1 : (l1.filter fun x => !(x.address == id)) = l1 :=
        List.filter_eq_self.mpr (fun x hx => by simp [h1 x hx])
      have e2 : (l2.filter fun x => !(x.address == id)) = l2 :=
        List.filter_eq_self.mpr (fun x hx => by simp [h2 x hx])
      rw [hwneg, e1, e2]
      simp
    have hloop := restoreLoop_unique_hit env id b1 b2 hm hf l1 l2 w hwid h1 h2 st
    constructor
    · unfold restore_specific_window
      rw [hread, hfilter]
      simp [hloop, save_windows_to_cache]
    · rw [hfilter]
      simp
      omega

/-- C5 witness: restoring `0x51` from a consistent two-record store — with
the focus dispatch reporting failure — still removes exactly that record
and issues a move targeting its stored workspace 3. -/
theorem restore_by_address_spec_witness :
    restore_specific_window env5 "0x51" st5 =
      (Except.ok RestoreResult.restored,
        { st5 with file := CacheFile.ok ([r51, r52].filter fun x => !(x.address == "0x51")),
                   cmds := st5.cmds ++
                     [HyprCmd.moveToWorkspace r51.workspace "0x51",
                       HyprCmd.focusWindow "0x51"] }) ∧
      ([r51, r52].filter fun x => !(x.address == "0x51")).length + 1 =
        ([r51, r52] : List MinimizedWindow).length :=
  (restore_by_address_spec env5 st5 [r51, r52] "0x51 0x52" "special:minimized 0x51 0x52"
    "0x51" true false rfl rfl rfl (by decide) (by decide) rfl rfl).2 r51 (by simp) rfl

/-- C6 (code bug): minimizing the same address twice yields two records
with that address.  Starting from an empty store in a world where window
`0xabc` stays active, listed, and inside `special:minimized`, two
successive `minimize_window` calls leave the store with two identical
records for `0xabc`, violating the no-duplicate-address invariant the
spec requires the orchestrator to guard. -/
theorem double_minimize_duplicates_address :
    ((minimize_window env6 (minimize_window env6 st6).2).2).file =
      CacheFile.ok [rec6, rec6] ∧
      ¬ ([rec6, rec6].Pairwise fun x y => x.address ≠ y.address) := by
  constructor
  · rfl
  · simp [rec6]

/-- C7 (code bug): restore-by-address removes the record and persists but
fires no waybar signal.  On a consistent one-record store, the restore
succeeds, the cache file changes from one record to none, the two
dispatch commands run — and the signal count stays zero, though every
other store mutation in the program signals waybar. -/
theorem restore_removal_fires_no_signal :
    restore_specific_window env7 "0x77" st7 =
      (Except.ok RestoreResult.restored,
        { file := CacheFile.ok [], signals := 0,
          cmds := [HyprCmd.moveToWorkspace 5 "0x77", HyprCmd.focusWindow "0x77"] }) ∧
      st7.file ≠ CacheFile.ok [] :=
  ⟨rfl, by decide⟩

/-- C8 counterexample: the claim that load never propagates an error is
false: with a readable, parseable, nonempty cache file, a clients query
that fails to run makes `read_windows_from_cache` return an error to the
caller (propagated out of the validation pass). -/
theorem load_raises_on_query_error :
    (read_windows_from_cache env8 st8).1 = Except.error () :=
  rfl

/-- C8 (amended): load returns an empty Store, raising nothing, when the
backing file is absent or its contents are unparseable; but when the
file parses to a nonempty list the validating read may propagate a
window-manager query error (and a file whose read fails also raises). -/
theorem load_selfheals_absent_or_corrupt (env : Env) (st : St)
    (h : st.file = CacheFile.absent ∨ st.file = CacheFile.corrupt) :
    read_windows_from_cache env st = (Except.ok [], st) := by
  rcases h with h | h <;> simp [read_windows_from_cache, h]

/-- C8 witness: a corrupt cache file self-heals to the empty store
without touching the world. -/
theorem load_selfheals_absent_or_corrupt_witness :
    read_windows_from_cache baseEnv st8w = (Except.ok [], st8w) :=
  load_selfheals_absent_or_corrupt baseEnv st8w (Or.inr rfl)

/-- C9: preview-pipeline failure containment.  If any of the four steps
(grim capture, thumbnail convert, icon convert, screenshot deletion)
fails, the pipeline returns the error and yields no preview path; and
such a failure never aborts the enclosing minimize: the record is still
created and appended, with an absent preview path. -/
theorem preview_failure_contained :
    (∀ (env : Env) (id g : String),
      (env.grim = Except.error () ∨ env.convertThumb = Except.error () ∨
        env.convertIcon = Except.error () ∨ env.removePreview = Except.error ()) →
      capture_window_preview env id g = Except.error ()) ∧
    (∀ (env : Env) (st : St) (a c t u v cj wj : String) (ws : List MinimizedWindow),
      env.activeWindow =
        Except.ok (true, [("address", a), ("class", c), ("title", t), ("at", u), ("size", v)]) →
      c ≠ "wofi" →
      env.activeWorkspace = Except.ok (true, []) →
      env.moveToSpecial = Except.ok true →
      st.file = CacheFile.ok ws →
      env.clients = Except.ok cj →
      env.workspaces = Except.ok wj →
      (∀ w ∈ ws, keepWindow cj wj w = true) →
      (env.grim = Except.error () ∨ env.convertThumb = Except.error () ∨
        env.convertIcon = Except.error () ∨ env.removePreview = Except.error ()) →
      ∃ rec, (minimize_window env st).1 = Except.ok () ∧
        (minimize_window env st).2.file = CacheFile.ok (ws ++ [rec]) ∧
        rec.preview_path = none) := by
  constructor
  · exact capture_window_preview_error
  · intro env st a c t u v cj wj ws hA hwofi hW hM hfile hc hw hkeep hfail
    refine ⟨minRecord env a c t u v [], ?_, ?_, ?_⟩
    · rw [minimize_success_spec env st a c t u v cj wj ws [] hA hwofi hW hM hfile hc hw hkeep]
    · rw [minimize_success_spec env st a c t u v cj wj ws [] hA hwofi hW hM hfile hc hw hkeep]
    · show (capture_window_preview env a (strTrim u ++ "," ++ strTrim v)).toOption = none
      rw [capture_window_preview_error env a (strTrim u ++ "," ++ strTrim v) hfail]
      rfl

/-- C9 witness: with grim failing, the pipeline yields no path, yet
minimizing the `env9` active window still appends its record, with
`preview_path = none`. -/
theorem preview_failure_contained_witness :
    capture_window_preview env9 "0x99" "1,2,3,4" = Except.error () ∧
      (∃ rec, (minimize_window env9 st9).1 = Except.ok () ∧
        (minimize_window env9 st9).2.file = CacheFile.ok ([] ++ [rec]) ∧
        rec.preview_path = none) :=
  ⟨preview_failure_contained.1 env9 "0x99" "1,2,3,4" (Or.inl rfl),
    preview_failure_contained.2 env9 st9 "0x99" "kitty" "sh" "1,2" "3,4" "x" "y" []
      rfl (by decide) rfl rfl rfl rfl rfl (by simp) (Or.inl rfl)⟩

/-- C10: the `restore-last` subcommand restores the record at the FRONT
of the store — the oldest minimized window, since minimize appends new
records at the end (second conjunct) — not the most recent one: on a
consistent store with head `w` and nonempty tail, it removes `w` and
issues the dispatch commands targeting `w.address`. -/
theorem restore_last_targets_oldest :
    (∀ (env : Env) (st : St) (w : MinimizedWindow) (rest : List MinimizedWindow)
      (cj wj : String) (b1 b2 : Bool),
      env.clients = Except.ok cj → env.workspaces = Except.ok wj →
      st.file = CacheFile.ok (w :: rest) →
      (∀ x ∈ w :: rest, keepWindow cj wj x = true) →
      ((w :: rest).Pairwise fun x y => x.address ≠ y.address) →
      env.dispatchMove = Except.ok b1 → env.dispatchFocus = Except.ok b2 →
      rest ≠ [] →
      restore_last env st =
        (Except.ok (),
          { st with file := CacheFile.ok rest,
                    cmds := st.cmds ++
                      [HyprCmd.moveToWorkspace w.workspace w.address,
                        HyprCmd.focusWindow w.address] })) ∧
    (∀ (env : Env) (st : St) (a c t u v cj wj : String) (ws : List MinimizedWindow),
      env.activeWindow =
        Except.ok (true, [("address", a), ("class", c), ("title", t), ("at", u), ("size", v)]) →
      c ≠ "wofi" →
      env.activeWorkspace = Except.ok (true, []) →
      env.moveToSpecial = Except.ok true →
      st.file = CacheFile.ok ws →
      env.clients = Except.ok cj →
      env.workspaces = Except.ok wj →
      (∀ w ∈ ws, keepWindow cj wj w = true) →
      (minimize_window env st).2.file = CacheFile.ok (ws ++ [minRecord env a c t u v []])) := by
  constructor
  · intro env st w rest cj wj b1 b2 hc hw hfile hkeep hnd hm hf _hlen
    have hread := read_consistent env st (w :: rest) cj wj hfile hc hw hkeep
    have h2 : ∀ x ∈ rest, x.address ≠ w.address := by
      intro x hx hcontra
      exact ((List.pairwise_cons.mp hnd).1 x hx) hcontra.symm
    have hloop := restoreLoop_unique_hit env w.address b1 b2 hm hf [] rest w rfl
      (by simp) h2 st
    simp only [List.nil_append] at hloop
    have hrsw : restore_specific_window env w.address st =
        (Except.ok RestoreResult.restored,
          { st with file := CacheFile.ok rest,
                    cmds := st.cmds ++
                      [HyprCmd.moveToWorkspace w.workspace w.address,
                        HyprCmd.focusWindow w.address] }) := by
      unfold restore_specific_window
      rw [hread]
      simp [hloop, save_windows_to_cache]
    unfold restore_last
    rw [hread]
    simp [hrsw]
  · intro env st a c t u v cj wj ws hA hwofi hW hM hfile hc hw hkeep
    rw [minimize_success_spec env st a c t u v cj wj ws [] hA hwofi hW hM hfile hc hw hkeep]

/-- C10 witness: on the consistent two-record store `[rX, rY]`,
`restore-last` removes `rX` (the oldest) and issues the dispatches
targeting `rX.address`, leaving `[rY]`. -/
theorem restore_last_targets_oldest_witness :
    restore_last env10 st10 =
      (Except.ok (),
        { st10 with file := CacheFile.ok [rY],
                    cmds := st10.cmds ++
                      [HyprCmd.moveToWorkspace rX.workspace rX.address,
                        HyprCmd.focusWindow rX.address] }) :=
  restore_last_targets_oldest.1 env10 st10 rX [rY] "0xc1 0xc2"
    "special:minimized 0xc1 0xc2" true true rfl rfl rfl (by decide) (by decide)
    rfl rfl (by decide)

end Minhypr
